import Mathlib

/-
Verification of the service worker in sw.js: the strategy selector,
the cache-first and network-first executors, the fetch dispatcher,
the install-time seeding, the activate-time pruning of stale cache
generations, and the background eviction of the dynamic cache.

Promises are modelled as Except values (a resolved promise is .ok, a
rejected one is .error); the cache store is modelled as a lookup
function from URL keys to optional responses, with writes recorded
explicitly; the network fetch outcome is passed in as a value.
-/

namespace SW

/-- Characters of p form an initial segment of the second list (models
String.startsWith semantics of JavaScript). -/
def listIsPre : List Char → List Char → Bool
  | [], _ => true
  | _ :: _, [] => false
  | a :: as, b :: bs => a == b && listIsPre as bs

/-- Substring containment on character lists (models String.includes). -/
def listHasSub (sub : List Char) : List Char → Bool
  | [] => listIsPre sub []
  | c :: cs => listIsPre sub (c :: cs) || listHasSub sub cs

/-- Models url.startsWith(p) of JavaScript. -/
def strStartsWith (s p : String) : Bool := listIsPre p.data s.data

/-- Models url.endsWith(p) of JavaScript. -/
def strEndsWith (s p : String) : Bool := listIsPre p.data.reverse s.data.reverse

/-- Models url.includes(p) of JavaScript. -/
def strIncludes (s p : String) : Bool := listHasSub p.data s.data

/-- Cache name constant CACHE_NAME of sw.js line 1. -/
def CACHE_NAME : String := "matteo-declic-v1.0.0"

/-- Cache name constant STATIC_CACHE of sw.js line 2. -/
def STATIC_CACHE : String := "matteo-declic-static-v1.0.0"

/-- Cache name constant DYNAMIC_CACHE of sw.js line 3. -/
def DYNAMIC_CACHE : String := "matteo-declic-dynamic-v1.0.0"

/-- Required seed assets STATIC_ASSETS of sw.js lines 6-10. -/
def STATIC_ASSETS : List String := ["./", "./index.html", "./manifest.json"]

/-- Optional seed assets OPTIONAL_ASSETS of sw.js lines 13-16. -/
def OPTIONAL_ASSETS : List String := ["./icon-192x192.png", "./icon-512x512.png"]

/-- An inbound fetch request. origin and pathname are the components the
URL constructor extracts from url; method and mode are request fields. -/
structure Request where
  url : String
  origin : String
  pathname : String
  method : String
  mode : String

/-- A response snapshot: status, headers, body. -/
structure Response where
  status : Nat
  headers : List (String × String)
  body : String

/-- Response.ok of the fetch API: status in the range 200-299. -/
def Response.ok (r : Response) : Bool :=
  decide (200 ≤ r.status) && decide (r.status ≤ 299)

/-- getCacheStrategy of sw.js lines 79-101, with self.location.origin
passed in as selfOrigin. Returns "cache-first" exactly when the origin
matches and the pathname satisfies one of the listed tests. -/
def getCacheStrategy (selfOrigin : String) (req : Request) : String :=
  if req.origin = selfOrigin ∧
      (req.pathname = "./" ∨
       req.pathname = "./index.html" ∨
       req.pathname = "./manifest.json" ∨
       strIncludes req.pathname "icon-" = true ∨
       strEndsWith req.pathname ".html" = true ∨
       strEndsWith req.pathname ".js" = true ∨
       strEndsWith req.pathname ".css" = true ∨
       strEndsWith req.pathname ".png" = true ∨
       strEndsWith req.pathname ".jpg" = true ∨
       strEndsWith req.pathname ".svg" = true ∨
       strEndsWith req.pathname ".ico" = true) then
    "cache-first"
  else
    "network-first"

/-- The synthetic offline response built in cacheFirst, sw.js lines 124-127. -/
def offlineResponse : Response :=
  { status := 503
    headers := [("Content-Type", "text/html; charset=utf-8")]
    body := "Application hors ligne" }

/-- The synthetic generic-miss response built in the fetch listener,
sw.js lines 185-188. -/
def notAvailableResponse : Response :=
  { status := 404
    headers := [("Content-Type", "text/plain; charset=utf-8")]
    body := "Contenu non disponible" }

/-- Outcome of running one executor: the settled promise value (a response
or a propagated error), the cache writes it issued as (key, response)
pairs, and whether the network fetch was invoked. -/
structure ExecResult where
  result : Except String Response
  writes : List (String × Response)
  fetched : Bool

/-- cacheFirst of sw.js lines 104-131. cacheMatch is caches.match keyed
by URL; fetchResult is the settled outcome of fetch(request). On a cache
hit the entry is returned at once (no fetch). On a miss the network
response is returned, written to the dynamic cache only when ok. When the
fetch rejects: for navigation requests, the cached "./index.html" or the
synthetic 503 page is returned; otherwise the error is rethrown. -/
def cacheFirst (req : Request) (cacheMatch : String → Option Response)
    (fetchResult : Except String Response) : ExecResult :=
  match cacheMatch req.url with
  | some cached => ⟨.ok cached, [], false⟩
  | none =>
    match fetchResult with
    | .ok netResp =>
      if netResp.ok then ⟨.ok netResp, [(req.url, netResp)], true⟩
      else ⟨.ok netResp, [], true⟩
    | .error e =>
      if req.mode = "navigate" then
        match cacheMatch "./index.html" with
        | some fallback => ⟨.ok fallback, [], true⟩
        | none => ⟨.ok offlineResponse, [], true⟩
      else ⟨.error e, [], true⟩

/-- networkFirst of sw.js lines 134-152. On a settled fetch the response
is returned, written to the dynamic cache only when ok and the method is
GET. On a rejected fetch the cached copy is returned when present,
otherwise the error is rethrown. -/
def networkFirst (req : Request) (cacheMatch : String → Option Response)
    (fetchResult : Except String Response) : ExecResult :=
  match fetchResult with
  | .ok netResp =>
    if netResp.ok && (req.method == "GET") then ⟨.ok netResp, [(req.url, netResp)], true⟩
    else ⟨.ok netResp, [], true⟩
  | .error e =>
    match cacheMatch req.url with
    | some cached => ⟨.ok cached, [], true⟩
    | none => ⟨.error e, [], true⟩

/-- The browser-extension scheme test of sw.js lines 158-159. -/
def extensionScheme (url : String) : Bool :=
  strStartsWith url "chrome-extension://" || strStartsWith url "moz-extension://"

/-- The fetch listener of sw.js lines 155-192. Returns none when the
listener declines to intercept (no respondWith: the request passes
through untouched); otherwise some (response, cache writes), where the
final catch maps an executor error to the cached main document (for
navigations that have one) or the synthetic 404 response. -/
def fetchHandler (selfOrigin : String) (req : Request)
    (cacheMatch : String → Option Response)
    (fetchResult : Except String Response) :
    Option (Response × List (String × Response)) :=
  if req.method ≠ "GET" ∨ extensionScheme req.url = true then none
  else
    let strat := getCacheStrategy selfOrigin req
    let r := if strat = "cache-first" then cacheFirst req cacheMatch fetchResult
             else networkFirst req cacheMatch fetchResult
    match r.result with
    | .ok resp => some (resp, r.writes)
    | .error _ =>
      if req.mode = "navigate" then
        match cacheMatch "./index.html" with
        | some fallback => some (fallback, r.writes)
        | none => some (notAvailableResponse, r.writes)
      else some (notAvailableResponse, r.writes)

/-- Outcome of the install event: whether the promise handed to
event.waitUntil settles resolved (installation completes), and whether
self.skipWaiting was invoked. -/
structure InstallOutcome where
  waitUntilResolves : Bool
  skipWaitingCalled : Bool

/-- Promise.all on two promises: rejects when either rejects. -/
def promiseAll2 {α β : Type} (a : Except String α) (b : Except String β) :
    Except String (α × β) :=
  match a with
  | .error e => .error e
  | .ok x =>
    match b with
    | .error e => .error e
    | .ok y => .ok (x, y)

/-- The per-asset .catch(err => console.warn(...)) wrapper of sw.js
lines 34-36: a rejected add settles resolved (with undefined). -/
def catchSwallow (p : Except String Unit) : Except String Unit :=
  match p with
  | .ok u => .ok u
  | .error _ => .ok ()

/-- Promise.allSettled of sw.js line 32: always resolves, recording for
each input promise whether it was fulfilled. -/
def allSettledFlags (ps : List (Except String Unit)) : Except String (List Bool) :=
  .ok (ps.map fun p =>
    match p with
    | .ok _ => true
    | .error _ => false)

/-- The install listener of sw.js lines 19-47. staticSeed is the settled
outcome of cache.addAll(STATIC_ASSETS) on the static cache; optionalSeeds
are the outcomes of the individual cache.add calls for OPTIONAL_ASSETS on
the dynamic cache. The chain is
Promise.all([staticPart, dynamicPart]).then(skipWaiting).catch(log):
each optional add is wrapped in a swallowing catch and gathered with
allSettled, so the dynamic part always resolves; the trailing catch only
logs, so the promise handed to waitUntil resolves in every case. -/
def installEvent (staticSeed : Except String Unit)
    (optionalSeeds : List (Except String Unit)) : InstallOutcome :=
  match promiseAll2 staticSeed (allSettledFlags (optionalSeeds.map catchSwallow)) with
  | .ok _ => ⟨true, true⟩
  | .error _ => ⟨true, false⟩

/-- The deletion test of the activate listener, sw.js lines 58-61: a cache
name is deleted when it carries the application tag and is neither of the
two live generation names. -/
def pruneDrops (n : String) : Bool :=
  strStartsWith n "matteo-declic-" && !(n == STATIC_CACHE || n == DYNAMIC_CACHE)

/-- The cache names deleted by the activate listener, sw.js lines 56-66. -/
def pruneDeleted (names : List String) : List String :=
  names.filter pruneDrops

/-- The cache names that survive the activate listener: those the
deletion pass of sw.js lines 56-66 does not delete. -/
def pruneRemaining (names : List String) : List String :=
  names.filter (fun n => !(pruneDrops n))

/-- The eviction step of performBackgroundSync, sw.js lines 248-256:
the entries deleted are requests.slice(0, requests.length - 50) — the
oldest in enumeration order — and only when more than 50 are held.
(The function afterwards re-adds "./index.html" best-effort, sw.js
line 259, which is separate from the cap enforcement modelled here.) -/
def evictDeleted {α : Type} (reqs : List α) : List α :=
  if reqs.length > 50 then reqs.take (reqs.length - 50) else []

/-- The entries kept by the eviction step of performBackgroundSync:
those not in the deleted slice, i.e. the trailing 50 when over cap. -/
def evictKept {α : Type} (reqs : List α) : List α :=
  if reqs.length > 50 then reqs.drop (reqs.length - 50) else reqs

/-- C2: the strategy selector is a pure function of origin and path that
returns cache-first exactly when the origin matches the serving origin
and the path passes one of the listed tests (the literal app-root, main
document and manifest comparisons, an icon-named asset, or an extension
in html, js, css, png, jpg, svg, ico); every other request gets
network-first — in particular the manifest path "/manifest.json" and the
app root "/" as they appear in a normalized URL. -/
theorem getCacheStrategy_rule (selfOrigin : String) (req : Request) :
    (getCacheStrategy selfOrigin req = "cache-first" ↔
      (req.origin = selfOrigin ∧
        (req.pathname = "./" ∨
         req.pathname = "./index.html" ∨
         req.pathname = "./manifest.json" ∨
         strIncludes req.pathname "icon-" = true ∨
         strEndsWith req.pathname ".html" = true ∨
         strEndsWith req.pathname ".js" = true ∨
         strEndsWith req.pathname ".css" = true ∨
         strEndsWith req.pathname ".png" = true ∨
         strEndsWith req.pathname ".jpg" = true ∨
         strEndsWith req.pathname ".svg" = true ∨
         strEndsWith req.pathname ".ico" = true))) ∧
    (getCacheStrategy selfOrigin req = "cache-first" ∨
     getCacheStrategy selfOrigin req = "network-first") ∧
    getCacheStrategy selfOrigin
      ⟨selfOrigin ++ "/manifest.json", selfOrigin, "/manifest.json", "GET", "no-cors"⟩
      = "network-first" ∧
    getCacheStrategy selfOrigin
      ⟨selfOrigin ++ "/", selfOrigin, "/", "GET", "navigate"⟩
      = "network-first" := by
  refine ⟨?_, ?_, ?_, ?_⟩
  · unfold getCacheStrategy
    split
    · rename_i h
      exact iff_of_true rfl h
    · rename_i h
      exact iff_of_false (by decide) h
  · unfold getCacheStrategy
    split
    · exact Or.inl rfl
    · exact Or.inr rfl
  · unfold getCacheStrategy
    dsimp only
    split
    · rename_i h
      exact absurd h.2 (by decide)
    · rfl
  · unfold getCacheStrategy
    dsimp only
    split
    · rename_i h
      exact absurd h.2 (by decide)
    · rfl

/-- C3 counterexample: the same-origin path "/icon-192.webp" has an
extension outside the html/js/css/png/jpg/svg/ico set, yet the selector
returns cache-first (not network-first as the claim states), because the
path contains "icon-". -/
theorem getCacheStrategy_icon_webp :
    getCacheStrategy "https://app.example"
      ⟨"https://app.example/icon-192.webp", "https://app.example",
       "/icon-192.webp", "GET", "no-cors"⟩ = "cache-first" ∧
    ¬(strEndsWith "/icon-192.webp" ".html" = true ∨
      strEndsWith "/icon-192.webp" ".js" = true ∨
      strEndsWith "/icon-192.webp" ".css" = true ∨
      strEndsWith "/icon-192.webp" ".png" = true ∨
      strEndsWith "/icon-192.webp" ".jpg" = true ∨
      strEndsWith "/icon-192.webp" ".svg" = true ∨
      strEndsWith "/icon-192.webp" ".ico" = true) := by
  constructor
  · decide
  · decide

/-- C3 amended: a same-origin request whose path extension lies in the
set gets cache-first; and a request gets network-first exactly when it is
not same-origin with one of the selector's path tests satisfied — the
extension set, a path containing "icon-", or one of the literal "./",
"./index.html", "./manifest.json" comparisons. -/
theorem getCacheStrategy_ext_rule (selfOrigin : String) (req : Request) :
    (req.origin = selfOrigin →
      (strEndsWith req.pathname ".html" = true ∨
       strEndsWith req.pathname ".js" = true ∨
       strEndsWith req.pathname ".css" = true ∨
       strEndsWith req.pathname ".png" = true ∨
       strEndsWith req.pathname ".jpg" = true ∨
       strEndsWith req.pathname ".svg" = true ∨
       strEndsWith req.pathname ".ico" = true) →
      getCacheStrategy selfOrigin req = "cache-first") ∧
    (getCacheStrategy selfOrigin req = "network-first" ↔
      ¬(req.origin = selfOrigin ∧
        (req.pathname = "./" ∨
         req.pathname = "./index.html" ∨
         req.pathname = "./manifest.json" ∨
         strIncludes req.pathname "icon-" = true ∨
         strEndsWith req.pathname ".html" = true ∨
         strEndsWith req.pathname ".js" = true ∨
         strEndsWith req.pathname ".css" = true ∨
         strEndsWith req.pathname ".png" = true ∨
         strEndsWith req.pathname ".jpg" = true ∨
         strEndsWith req.pathname ".svg" = true ∨
         strEndsWith req.pathname ".ico" = true))) := by
  constructor
  · intro ho hext
    unfold getCacheStrategy
    rw [if_pos ⟨ho, by tauto⟩]
  · unfold getCacheStrategy
    split
    · rename_i h
      exact iff_of_false (by decide) (not_not_intro h)
    · rename_i h
      exact iff_of_true rfl h

/-- C3 amended witness: a same-origin stylesheet request is classified
cache-first. -/
theorem getCacheStrategy_ext_rule_witness :
    getCacheStrategy "https://o"
      ⟨"https://o/app.css", "https://o", "/app.css", "GET", "no-cors"⟩
      = "cache-first" :=
  (getCacheStrategy_ext_rule "https://o"
    ⟨"https://o/app.css", "https://o", "/app.css", "GET", "no-cors"⟩).1
    rfl (by decide)

/-- C1 evidence: the install chain ends in a catch that only logs, so the
promise handed to waitUntil resolves even when seeding a required asset
fails — installation completes (only skipWaiting is skipped), the failure
is not propagated; an optional-seed failure is likewise swallowed and
installation completes with skipWaiting invoked. -/
theorem installEvent_outcomes :
    installEvent (.error "addAll rejected: ./index.html unavailable") [.ok ()] =
      ⟨true, false⟩ ∧
    installEvent (.ok ()) [.error "icon-192x192.png unavailable", .ok ()] =
      ⟨true, true⟩ :=
  ⟨rfl, rfl⟩

/-- C4: provided the two live generation names are among the existing
cache names, after the activate-time deletion pass the application-tagged
names that remain are exactly the two live ones, and every other
application-tagged name that existed is in the deleted set. -/
theorem pruneRemaining_live (names : List String)
    (hs : STATIC_CACHE ∈ names) (hd : DYNAMIC_CACHE ∈ names) :
    (∀ n, (n ∈ pruneRemaining names ∧ strStartsWith n "matteo-declic-" = true) ↔
      (n = STATIC_CACHE ∨ n = DYNAMIC_CACHE)) ∧
    (∀ n ∈ names, strStartsWith n "matteo-declic-" = true →
      n ≠ STATIC_CACHE → n ≠ DYNAMIC_CACHE → n ∈ pruneDeleted names) := by
  constructor
  · intro n
    constructor
    · rintro ⟨hmem, hpre⟩
      rw [pruneRemaining, List.mem_filter] at hmem
      obtain ⟨-, hkeep⟩ := hmem
      unfold pruneDrops at hkeep
      rw [hpre] at hkeep
      simpa using hkeep
    · rintro (rfl | rfl)
      · exact ⟨by rw [pruneRemaining, List.mem_filter]; exact ⟨hs, by decide⟩, by decide⟩
      · exact ⟨by rw [pruneRemaining, List.mem_filter]; exact ⟨hd, by decide⟩, by decide⟩
  · intro n hmem hpre hne1 hne2
    rw [pruneDeleted, List.mem_filter]
    refine ⟨hmem, ?_⟩
    unfold pruneDrops
    rw [hpre]
    simp [hne1, hne2]

/-- C4 witness: with both live names and a stale v0.9.0 generation
present, the stale name is not among the surviving application-tagged
names. -/
theorem pruneRemaining_live_witness :
    (("matteo-declic-static-v0.9.0" ∈
        pruneRemaining [STATIC_CACHE, DYNAMIC_CACHE, "matteo-declic-static-v0.9.0", "other"] ∧
      strStartsWith "matteo-declic-static-v0.9.0" "matteo-declic-" = true) ↔
      ("matteo-declic-static-v0.9.0" = STATIC_CACHE ∨
       "matteo-declic-static-v0.9.0" = DYNAMIC_CACHE)) :=
  (pruneRemaining_live [STATIC_CACHE, DYNAMIC_CACHE, "matteo-declic-static-v0.9.0", "other"]
    (by simp) (by simp)).1 "matteo-declic-static-v0.9.0"

/-- C5: the eviction step deletes exactly the leading
length - 50 entries in enumeration order and keeps the trailing 50 when
the dynamic generation holds more than 50 entries (for 73 entries: 23
deleted, the 50 kept are the most recently enumerated), and deletes
nothing at or under the cap. -/
theorem evict_fifo {α : Type} (reqs : List α) :
    evictDeleted reqs ++ evictKept reqs = reqs ∧
    (reqs.length > 50 →
      evictDeleted reqs = reqs.take (reqs.length - 50) ∧
      evictKept reqs = reqs.drop (reqs.length - 50) ∧
      (evictDeleted reqs).length = reqs.length - 50 ∧
      (evictKept reqs).length = 50) ∧
    (reqs.length = 73 →
      (evictDeleted reqs).length = 23 ∧
      (evictKept reqs).length = 50 ∧
      evictKept reqs = reqs.drop 23) ∧
    (reqs.length ≤ 50 → evictDeleted reqs = [] ∧ evictKept reqs = reqs) := by
  refine ⟨?_, ?_, ?_, ?_⟩
  · unfold evictDeleted evictKept
    by_cases h : reqs.length > 50
    · rw [if_pos h, if_pos h, List.take_append_drop]
    · rw [if_neg h, if_neg h, List.nil_append]
  · intro h
    unfold evictDeleted evictKept
    simp only [if_pos h]
    refine ⟨by trivial, by trivial, ?_, ?_⟩
    · rw [List.length_take, min_eq_left (by omega)]
    · rw [List.length_drop]
      omega
  · intro h73
    have h : reqs.length > 50 := by omega
    unfold evictDeleted evictKept
    simp only [if_pos h]
    refine ⟨?_, ?_, ?_⟩
    · rw [List.length_take, min_eq_left (by omega), h73]
    · rw [List.length_drop]
      omega
    · rw [h73]
  · intro hle
    unfold evictDeleted evictKept
    rw [if_neg (by omega), if_neg (by omega)]
    constructor <;> trivial

/-- C5 witness: on 73 entries exactly 23 leading entries are deleted and
the trailing 50 kept; on 10 entries nothing is deleted. -/
theorem evict_fifo_witness :
    ((evictDeleted (List.range 73)).length = 23 ∧
     (evictKept (List.range 73)).length = 50 ∧
     evictKept (List.range 73) = (List.range 73).drop 23) ∧
    (evictDeleted (List.range 10) = [] ∧ evictKept (List.range 10) = List.range 10) :=
  ⟨(evict_fifo (List.range 73)).2.2.1 (by simp),
   (evict_fifo (List.range 10)).2.2.2 (by simp)⟩

/-- A sample cached main document used by concrete instances. -/
def sampleDoc : Response :=
  ⟨200, [("Content-Type", "text/html; charset=utf-8")], "index"⟩

/-- A sample cached response used by concrete instances. -/
def sampleCached : Response := ⟨200, [], "cached"⟩

/-- A sample non-2xx network response used by concrete instances. -/
def sampleNotFound : Response := ⟨404, [], "not found"⟩

/-- A sample navigation request. -/
def navRequest : Request := ⟨"https://o/page", "https://o", "/page", "GET", "navigate"⟩

/-- A sample subresource request. -/
def subRequest : Request := ⟨"https://o/data.json", "https://o", "/data.json", "GET", "no-cors"⟩

/-- A sample non-GET request. -/
def postRequest : Request := ⟨"https://o/api", "https://o", "/api", "POST", "no-cors"⟩

/-- A cache holding only the main document under "./index.html". -/
def docOnlyCache : String → Option Response :=
  fun u => if u = "./index.html" then some sampleDoc else none

/-- The empty cache. -/
def emptyCache : String → Option Response := fun _ => none

/-- A cache holding an entry for every key. -/
def fullCache : String → Option Response := fun _ => some sampleCached

/-- C6: for a cache-first navigation request with no matching entry whose
fetch rejects, the executor returns the cached main document when one
exists and otherwise the synthetic offline response with status 503 and
an HTML content type; in either case the result is a returned response,
never a propagated failure. -/
theorem cacheFirst_navigation_fallback (req : Request)
    (cacheMatch : String → Option Response) (e : String)
    (hmiss : cacheMatch req.url = none) (hnav : req.mode = "navigate") :
    (∀ d, cacheMatch "./index.html" = some d →
      cacheFirst req cacheMatch (.error e) = ⟨.ok d, [], true⟩) ∧
    (cacheMatch "./index.html" = none →
      cacheFirst req cacheMatch (.error e) = ⟨.ok offlineResponse, [], true⟩) ∧
    offlineResponse.status = 503 ∧
    offlineResponse.headers = [("Content-Type", "text/html; charset=utf-8")] ∧
    ∃ r, (cacheFirst req cacheMatch (.error e)).result = .ok r := by
  refine ⟨?_, ?_, rfl, rfl, ?_⟩
  · intro d hd
    simp [cacheFirst, hmiss, hnav, hd]
  · intro hidx
    simp [cacheFirst, hmiss, hnav, hidx]
  · cases hidx : cacheMatch "./index.html" with
    | none => exact ⟨offlineResponse, by simp [cacheFirst, hmiss, hnav, hidx]⟩
    | some d => exact ⟨d, by simp [cacheFirst, hmiss, hnav, hidx]⟩

/-- C6 witness: a navigation request with an empty entry for its own URL
but a cached main document gets the cached main document. -/
theorem cacheFirst_navigation_fallback_witness :
    cacheFirst navRequest docOnlyCache (.error "network down") = ⟨.ok sampleDoc, [], true⟩ :=
  (cacheFirst_navigation_fallback navRequest docOnlyCache "network down" rfl rfl).1
    sampleDoc rfl

/-- C7: for a network-first request whose fetch rejects, the executor
returns the cached entry when one exists, propagates the error when none
exists, and its behavior does not depend on the navigation mode of the
request (no navigation-specific fallback at this layer). -/
theorem networkFirst_fallback (req : Request)
    (cacheMatch : String → Option Response) (e : String) :
    (∀ c, cacheMatch req.url = some c →
      networkFirst req cacheMatch (.error e) = ⟨.ok c, [], true⟩) ∧
    (cacheMatch req.url = none →
      networkFirst req cacheMatch (.error e) = ⟨.error e, [], true⟩) ∧
    (∀ m₁ m₂,
      networkFirst ⟨req.url, req.origin, req.pathname, req.method, m₁⟩ cacheMatch (.error e) =
      networkFirst ⟨req.url, req.origin, req.pathname, req.method, m₂⟩ cacheMatch (.error e)) := by
  refine ⟨?_, ?_, ?_⟩
  · intro c hc
    simp [networkFirst, hc]
  · intro h
    simp [networkFirst, h]
  · intro m₁ m₂
    rfl

/-- C7 witness: with an empty cache and a rejected fetch, the error is
propagated. -/
theorem networkFirst_fallback_witness :
    networkFirst subRequest emptyCache (.error "network down") =
      ⟨.error "network down", [], true⟩ :=
  (networkFirst_fallback subRequest emptyCache "network down").2.1 rfl

/-- C8: a cache-first request with an existing cache entry is answered
with that entry: the fetch is not invoked and no cache write is issued,
whatever the network outcome would have been. -/
theorem cacheFirst_hit (req : Request) (cacheMatch : String → Option Response)
    (cached : Response) (h : cacheMatch req.url = some cached)
    (fetchResult : Except String Response) :
    cacheFirst req cacheMatch fetchResult = ⟨.ok cached, [], false⟩ := by
  simp [cacheFirst, h]

/-- C8 witness: a prepopulated entry is served as-is even when the
network would have failed. -/
theorem cacheFirst_hit_witness :
    cacheFirst subRequest fullCache (.error "network down") =
      ⟨.ok sampleCached, [], false⟩ :=
  cacheFirst_hit subRequest fullCache sampleCached rfl (.error "network down")

/-- C9: the fetch listener declines to intercept a request whose method
is not GET or whose URL carries a browser-extension scheme: no handler is
installed and the request passes through untouched. -/
theorem fetchHandler_passthrough (selfOrigin : String) (req : Request)
    (cacheMatch : String → Option Response) (fetchResult : Except String Response)
    (h : req.method ≠ "GET" ∨ extensionScheme req.url = true) :
    fetchHandler selfOrigin req cacheMatch fetchResult = none := by
  unfold fetchHandler
  rw [if_pos h]

/-- C9 witness: a POST request is not intercepted. -/
theorem fetchHandler_passthrough_witness :
    fetchHandler "https://o" postRequest emptyCache (.ok sampleCached) = none :=
  fetchHandler_passthrough "https://o" postRequest emptyCache (.ok sampleCached)
    (Or.inl (by decide))

/-- C10: in both executors a fetch that settles with a non-2xx response
returns that response unmodified with no cache write; the cache fallback
and navigation fallback are reserved for a rejected fetch. -/
theorem executors_non_ok_passthrough (req : Request)
    (cacheMatch : String → Option Response) (netResp : Response)
    (hnotok : netResp.ok = false) :
    (cacheMatch req.url = none →
      cacheFirst req cacheMatch (.ok netResp) = ⟨.ok netResp, [], true⟩) ∧
    networkFirst req cacheMatch (.ok netResp) = ⟨.ok netResp, [], true⟩ := by
  constructor
  · intro hmiss
    simp [cacheFirst, hmiss, hnotok]
  · simp [networkFirst, hnotok]

/-- C10 witness: a 404 network response is passed through by both
executors without any cache write. -/
theorem executors_non_ok_passthrough_witness :
    cacheFirst subRequest emptyCache (.ok sampleNotFound) =
      ⟨.ok sampleNotFound, [], true⟩ ∧
    networkFirst subRequest emptyCache (.ok sampleNotFound) =
      ⟨.ok sampleNotFound, [], true⟩ :=
  ⟨(executors_non_ok_passthrough subRequest emptyCache sampleNotFound rfl).1 rfl,
   (executors_non_ok_passthrough subRequest emptyCache sampleNotFound rfl).2⟩

end SW
